import Mathlib

/-!
Verification development for the snow-cli SSE client
(`src/skills/codeWithSnow/scripts/snow_client.py`).

The client correlates an HTTP POST with events arriving on a concurrent SSE
stream. We shallowly embed:
* JSON values (`JVal`) with Python `dict.get` / truthiness semantics as they
  apply to `json.loads` output (JSON `null` decodes to Python `None`, so a
  key mapped to `null` is indistinguishable from an absent key for `get`);
* the per-operation correlator state (`ClientState`, the `self._*` fields
  reset by `_reset_runtime_state`), the event dispatcher
  (`handle_data_block`, from `_handle_data_block` + `_mark_complete_if_needed`),
  and the result builder (`build_result`, from `_build_result`);
* the orchestrator of `_run_message_operation` as a deterministic function of
  an environment (`OpEnv`) describing the behaviour of the concurrent parts
  (stream open, `connected` signal, the POST thread, the SSE completion
  signal), with the polling loop discretized one loop iteration per tick;
* the teardown protocol of `_close_event_stream` as a trace of actions.
-/

namespace SnowClient

/-- JSON values as produced by `json.loads`.  Numbers are modelled as
integers; no property below inspects a non-integral number. -/
inductive JVal where
  | null
  | bool (b : Bool)
  | num (n : Int)
  | str (s : String)
  | arr (elems : List JVal)
  | obj (fields : List (String × JVal))

/-- Python truthiness of a JSON-decoded value (`if x:`). -/
def truthy : JVal → Bool
  | JVal.null => false
  | JVal.bool b => b
  | JVal.num n => n != 0
  | JVal.str s => s != ""
  | JVal.arr xs => !xs.isEmpty
  | JVal.obj fs => !fs.isEmpty

/-- Truthiness of a possibly-absent value (`dict.get` result). -/
def truthyO : Option JVal → Bool
  | none => false
  | some v => truthy v

/-- First binding of a key in the field list of an object. -/
def lookupField : List (String × JVal) → String → Option JVal
  | [], _ => none
  | (k, v) :: rest, key => if k = key then some v else lookupField rest key

/-- Python `dict.get(key)` on a JSON-decoded value.  Returns `none` for
non-dicts; a key bound to JSON `null` decodes to Python `None`, hence is
collapsed to `none` as well. -/
def pget (v : JVal) (key : String) : Option JVal :=
  match v with
  | JVal.obj fields =>
    match lookupField fields key with
    | some JVal.null => none
    | other => other
  | _ => none

/-- Whether the value is a Python dict (`isinstance(x, dict)`). -/
def JVal.isObj : JVal → Bool
  | JVal.obj _ => true
  | _ => false

/-- Python `str()` of a JSON-decoded value.  Exact on scalars; containers are
rendered coarsely since no verified property inspects the repr of a
container. -/
def jstr : JVal → String
  | JVal.null => "None"
  | JVal.bool true => "True"
  | JVal.bool false => "False"
  | JVal.num n => toString n
  | JVal.str s => s
  | JVal.arr _ => "<list>"
  | JVal.obj _ => "<dict>"

/-- One entry of the accumulated message history (`self._messages` items and
the synthesized assistant entry of `_build_result`). -/
structure Message where
  role : String
  content : String
  images : Option (List String)
deriving DecidableEq

/-- Tag of a stored pending interactive request.  The source stores the
literal status strings `"requires_confirmation"` / `"requires_question"`;
these are the only two values ever stored, so they are modelled as an
enumeration rendered back by `pending_status`. -/
inductive PendingKind where
  | confirmation
  | question
deriving DecidableEq

/-- The status string stored in `self._pending_request["status"]`. -/
def pending_status : PendingKind → String
  | PendingKind.confirmation => "requires_confirmation"
  | PendingKind.question => "requires_question"

/-- Contents of `self._pending_request`. -/
structure PendingRequest where
  kind : PendingKind
  request_id : Option JVal
  request_data : JVal

/-- Contents of `self._error` (`error_code`/`message` always present,
`available_agents` only when the event carried a list). -/
structure ErrorInfo where
  error_code : JVal
  message : JVal
  available_agents : Option (List JVal)

/-- Contents of `self._final_event` as stored by `_mark_complete_if_needed`. -/
structure FinalEvent where
  type : String
  data : JVal
  request_id : Option JVal

/-- The per-operation mutable state of `SimpleSnowSSEClient` that
`_reset_runtime_state` initializes: the correlator fields plus the two
binary signals (`_connected_event`, `_completed_event`). -/
structure ClientState where
  completion_events : List String
  connected : Bool
  completed : Bool
  connection_id : Option String
  session_id : Option String
  messages : List Message
  assistant_final_content : String
  assistant_stream_content : String
  usage : JVal
  error : Option ErrorInfo
  pending_request : Option PendingRequest
  final_event : Option FinalEvent
  agent_list_data : Option JVal
  agent_switched_data : Option JVal
  rollback_result_data : Option JVal
  outbound_image_names : List String

/-- Model of `_reset_runtime_state`. -/
def reset_runtime_state (session_id : Option String) (completion_events : List String)
    (outbound_image_names : List String) : ClientState :=
  { completion_events := completion_events
    connected := false
    completed := false
    connection_id := none
    session_id := session_id
    messages := []
    assistant_final_content := ""
    assistant_stream_content := ""
    usage := JVal.obj []
    error := none
    pending_request := none
    final_event := none
    agent_list_data := none
    agent_switched_data := none
    rollback_result_data := none
    outbound_image_names := outbound_image_names }

/-- Model of `_mark_complete_if_needed`: when the event kind is in the
terminal set of the operation, record it as the final event and set the
completion signal. -/
def mark_complete_if_needed (s : ClientState) (event_type : String) (data : JVal)
    (request_id : Option JVal) : ClientState :=
  if event_type ∈ s.completion_events then
    { s with final_event := some { type := event_type, data := data, request_id := request_id }
             completed := true }
  else s

/-- Normalization of the `data` field of the event:
`data = event.get("data") if isinstance(event.get("data"), dict) else (event.get("data") or {})`. -/
def normalized_data (raw : Option JVal) : JVal :=
  match raw with
  | some d => if d.isObj then d else if truthy d then d else JVal.obj []
  | none => JVal.obj []

/-- The `type` field of the event when it is a string; comparisons with the string
literals in `_handle_data_block` are `False` for any non-string `type`. -/
def event_type_name (event : JVal) : Option String :=
  match pget event "type" with
  | some (JVal.str t) => some t
  | _ => none

/-- The `role` field of the message when it is a string; `role == "user"` etc. are
`False` for any non-string role. -/
def role_name (data : JVal) : Option String :=
  match pget data "role" with
  | some (JVal.str r) => some r
  | _ => none

/-- Model of `_handle_data_block`: parse failure of the data block (`parsed = none`)
is logged and discarded.  A parsed event is dispatched on its `type`.
(A well-formed-JSON block that is not an object would raise in the reader
thread in the source; no claim exercises that corner and it is not
modelled.) -/
def handle_data_block (s : ClientState) (parsed : Option JVal) : ClientState :=
  match parsed with
  | none => s
  | some event =>
    let etype := event_type_name event
    let data := normalized_data (pget event "data")
    let request_id := pget event "requestId"
    if etype = some "connected" then
      let s1 :=
        match (if data.isObj then pget data "connectionId" else none) with
        | some cid => if truthy cid then { s with connection_id := some (jstr cid) } else s
        | none => s
      { s1 with connected := true }
    else if etype = some "message" then
      if data.isObj then
        let role := role_name data
        let content := match pget data "content" with
          | none => ""
          | some c => jstr c
        if role = some "system" ∧ truthyO (pget data "sessionId") then
          { s with session_id := some (jstr ((pget data "sessionId").getD JVal.null)) }
        else if role = some "user" ∧ content ≠ "" then
          { s with messages := s.messages ++
              [{ role := "user", content := content
                 images := if s.outbound_image_names ≠ [] then some s.outbound_image_names
                           else none }] }
        else if role = some "assistant" then
          if truthyO (pget data "streaming") then
            { s with assistant_stream_content := content }
          else
            { s with assistant_final_content := content }
        else s
      else s
    else if etype = some "usage" then
      if data.isObj then { s with usage := data } else s
    else if etype = some "tool_confirmation_request" then
      if data.isObj then
        mark_complete_if_needed
          { s with pending_request := some
                     { kind := PendingKind.confirmation, request_id := request_id
                       request_data := data } }
          "tool_confirmation_request" data request_id
      else s
    else if etype = some "user_question_request" then
      if data.isObj then
        mark_complete_if_needed
          { s with pending_request := some
                     { kind := PendingKind.question, request_id := request_id
                       request_data := data } }
          "user_question_request" data request_id
      else s
    else if etype = some "agent_list" then
      if data.isObj then
        let s1 := { s with agent_list_data := some data }
        let s2 := match pget data "agents" with
          | some (JVal.arr _) => { s1 with pending_request := none }
          | _ => s1
        mark_complete_if_needed s2 "agent_list" data request_id
      else s
    else if etype = some "agent_switched" then
      if data.isObj then
        mark_complete_if_needed { s with agent_switched_data := some data }
          "agent_switched" data request_id
      else s
    else if etype = some "rollback_result" then
      if data.isObj then
        mark_complete_if_needed { s with rollback_result_data := some data }
          "rollback_result" data request_id
      else s
    else if etype = some "error" then
      let error_message : Option JVal :=
        if data.isObj then pget data "message" else some (JVal.str (jstr data))
      let error_code : Option JVal := if data.isObj then pget data "errorCode" else none
      let available_agents : Option JVal :=
        if data.isObj then pget data "availableAgents" else none
      let s1 := { s with
        error := some
                   { error_code := if truthyO error_code then error_code.getD JVal.null
                                   else JVal.str "server_error"
                     message := if truthyO error_message then error_message.getD JVal.null
                                else JVal.str "SSE 服务返回错误"
                     available_agents := match available_agents with
                       | some (JVal.arr l) => some l
                       | _ => none } }
      mark_complete_if_needed s1 "error" (if data.isObj then data else JVal.obj []) request_id
    else if etype = some "complete" then
      if data.isObj then
        let s1 := if truthyO (pget data "sessionId") then
            { s with session_id := some (jstr ((pget data "sessionId").getD JVal.null)) }
          else s
        let s2 := match pget data "usage" with
          | some u => if u.isObj then { s1 with usage := u } else s1
          | none => s1
        mark_complete_if_needed s2 "complete" data request_id
      else s
    else s

/-- The `ClientResult` dataclass.  Fields keep their dataclass defaults;
values that the source stores untyped (JSON-decoded data) are `JVal`. -/
structure ClientResult where
  status : String
  session_id : Option String := none
  messages : List Message := []
  usage : JVal := JVal.obj []
  error_code : Option JVal := none
  message : Option JVal := none
  suggestion : Option String := none
  request_id : Option JVal := none
  request_data : Option JVal := none
  sessions : Option (List JVal) := none
  total : Option Int := none
  agents : Option (List JVal) := none
  current_agent_id : Option String := none
  available_agents : Option (List JVal) := none
  rollback_points : Option (List JVal) := none
  deleted : Option Bool := none
  health : Option JVal := none

/-- Whether the stored final event carries the given type
(`self._final_event.get("type") == name` under the dict guard). -/
def finalTypeIs (s : ClientState) (name : String) : Bool :=
  match s.final_event with
  | some fe => fe.type == name
  | none => false

/-- Computes `self._assistant_final_content or self._assistant_stream_content`. -/
def assistantContent (s : ClientState) : String :=
  if s.assistant_final_content = "" then s.assistant_stream_content
  else s.assistant_final_content

/-- The assistant message `_build_result` appends when any assistant content
was observed. -/
def assistantSuffix (s : ClientState) : List Message :=
  if assistantContent s = "" then []
  else [{ role := "assistant", content := assistantContent s, images := none }]

/-- The `agent_list` success shape of `_build_result`. -/
def agent_list_result (s : ClientState) : ClientResult :=
  let d := s.agent_list_data.getD (JVal.obj [])
  let agents : List JVal := match pget d "agents" with
    | some (JVal.arr l) => l
    | _ => []
  { status := "success"
    session_id := s.session_id
    agents := some agents
    current_agent_id := (pget d "currentAgentId").map jstr }

/-- The `agent_switched` success shape of `_build_result`. -/
def agent_switched_result (s : ClientState) : ClientResult :=
  let d := s.agent_switched_data.getD (JVal.obj [])
  { status := "success"
    session_id := s.session_id
    current_agent_id := (pget d "currentAgentId").map jstr
    message := some (JVal.str
      (if truthyO (pget d "agentName") then
         "主代理已切换为 " ++ jstr ((pget d "agentName").getD JVal.null)
       else "主代理切换成功")) }

/-- Computes `str(self._rollback_result_data.get("sessionId") or self._session_id)`:
Python `or` takes the first truthy operand, and `str(None)` renders
`"None"`. -/
def rollback_result_session (d : JVal) (sid : Option String) : String :=
  if truthyO (pget d "sessionId") then jstr ((pget d "sessionId").getD JVal.null)
  else match sid with
    | some t => t
    | none => "None"

/-- The `rollback_result` shape of `_build_result`: the `success` flag of the
payload selects success or a `rollback_failed` error. -/
def rollback_result_shape (s : ClientState) : ClientResult :=
  let d := s.rollback_result_data.getD (JVal.obj [])
  if truthyO (pget d "success") then
    { status := "success"
      session_id := some (rollback_result_session d s.session_id)
      request_data := some d
      message := some (JVal.str "回滚执行成功") }
  else
    { status := "error"
      session_id := some (rollback_result_session d s.session_id)
      error_code := some (JVal.str "rollback_failed")
      message := some (JVal.str
        (if truthyO (pget d "error") then jstr ((pget d "error").getD JVal.null)
         else "回滚执行失败"))
      request_data := some d }

/-- The generic success shape of `_build_result`: accumulated user messages
plus, when any assistant content was seen, one synthesized assistant
message, and the latest usage snapshot. -/
def generic_success (s : ClientState) : ClientResult :=
  { status := "success"
    session_id := s.session_id
    messages := s.messages ++ assistantSuffix s
    usage := s.usage }

/-- Model of `_build_result`: precedence order is pending interactive request,
then stored error, then a typed payload matching the type of the final event, then
generic success. -/
def build_result (s : ClientState) : ClientResult :=
  match s.pending_request with
  | some p =>
    { status := pending_status p.kind
      session_id := s.session_id
      messages := s.messages
      usage := s.usage
      request_id := p.request_id
      request_data := some p.request_data }
  | none =>
    match s.error with
    | some e =>
      { status := "error"
        session_id := s.session_id
        messages := s.messages
        usage := s.usage
        error_code := some e.error_code
        message := some e.message
        available_agents := e.available_agents }
    | none =>
      if finalTypeIs s "agent_list" && s.agent_list_data.isSome then
        agent_list_result s
      else if finalTypeIs s "agent_switched" && s.agent_switched_data.isSome then
        agent_switched_result s
      else if finalTypeIs s "rollback_result" && s.rollback_result_data.isSome then
        rollback_result_shape s
      else
        generic_success s

/-- The `except` clause of `_event_reader_loop`: a stream read failure before
the completion signal records a synthetic `event_stream_error` and signals
completion; after the signal it does nothing. -/
def event_reader_on_failure (s : ClientState) (excText : String) : ClientState :=
  if s.completed then s
  else
    { s with
      error := some
                 { error_code := JVal.str "event_stream_error"
                   message := JVal.str ("读取 SSE 事件失败: " ++ excText)
                   available_agents := none }
      completed := true }

/-- Model of `_connection_failed_result`: the templated `connection_failed` error.
The message embeds the configured host and port and the exception text; the
suggestion embeds only the port. -/
def connection_failed_result (host : String) (port : Nat) (excText : String) : ClientResult :=
  { status := "error"
    error_code := some (JVal.str "connection_failed")
    message := some (JVal.str
      ("无法连接到 SSE 服务器 (" ++ host ++ ":" ++ toString port ++ "): " ++ excText))
    suggestion := some ("请确保 SSE 服务器已启动: snow --sse --sse-port " ++ toString port) }

/-- Whether the first character list is a prefix of the second. -/
def charsHavePre : List Char → List Char → Bool
  | [], _ => true
  | _ :: _, [] => false
  | a :: as, b :: bs => a == b && charsHavePre as bs

/-- Whether the second character list occurs contiguously in the first. -/
def charsHaveSub : List Char → List Char → Bool
  | h, n =>
    match h with
    | [] => n.isEmpty
    | _ :: rest => charsHavePre n h || charsHaveSub rest n

/-- Whether `needle` occurs as a contiguous substring of `hay`
(Python `needle in hay`). -/
def strHasSub (hay needle : String) : Bool :=
  charsHaveSub hay.data needle.data

/-- Model of `_http_error_to_result`: classify an `HTTPError` by code and body.
(The source interpolates and substring-tests `msg` assuming it is a string;
a non-string truthy `error`/`message` body field would raise there — that
corner is rendered through `jstr` here and exercised by no claim.) -/
def http_error_to_result (port : Nat) (code : Int) (body : Option JVal) (reason : String) :
    ClientResult :=
  let parsed : JVal := match body with
    | some (JVal.obj fs) => JVal.obj fs
    | _ => JVal.obj []
  let msg : JVal :=
    if truthyO (pget parsed "error") then (pget parsed "error").getD JVal.null
    else if truthyO (pget parsed "message") then (pget parsed "message").getD JVal.null
    else JVal.str ("HTTP " ++ toString code ++ ": " ++ reason)
  let msgText := jstr msg
  if code = 404 ∧ strHasSub msgText "Session not found" then
    { status := "error"
      error_code := some (JVal.str "session_not_found")
      message := some (JVal.str ("会话不存在: " ++ msgText)) }
  else if code = 400 ∧ strHasSub msgText "Session not found" then
    { status := "error"
      error_code := some (JVal.str "session_not_found")
      message := some (JVal.str ("会话不存在或连接已关闭: " ++ msgText)) }
  else if strHasSub msgText "No active connection" then
    { status := "error"
      error_code := some (JVal.str "connection_failed")
      message := some msg
      suggestion := some ("请确保 SSE 服务器已启动: snow --sse --sse-port " ++ toString port) }
  else
    { status := "error"
      error_code := some (JVal.str "server_error")
      message := some msg }

/-- Outcome of the single HTTP GET of `health_check`: a JSON body, a
`URLError`, or any other exception (each carrying its `str(exc)`). -/
inductive HttpOutcome where
  | ok (body : JVal)
  | urlError (excText : String)
  | otherError (excText : String)

/-- Model of `health_check`: one GET of `/health`, mapped to a Result. -/
def health_check (host : String) (port : Nat) (outcome : HttpOutcome) : ClientResult :=
  match outcome with
  | HttpOutcome.ok body => { status := "success", health := some body }
  | HttpOutcome.urlError e => connection_failed_result host port e
  | HttpOutcome.otherError e =>
    { status := "error"
      error_code := some (JVal.str "unexpected_error")
      message := some (JVal.str e) }

/-- The per-command parameters each public method passes to
`_run_message_operation`. -/
structure OpConfig where
  completion_events : List String
  ensure_session_if_missing : Bool
  wait_sse_completion : Bool

/-- Parameters `send_chat` passes to `_run_message_operation`. -/
def send_chat_config : OpConfig :=
  { completion_events := ["complete", "tool_confirmation_request", "user_question_request", "error"]
    ensure_session_if_missing := true
    wait_sse_completion := true }

/-- Parameters `send_tool_confirmation` passes to `_run_message_operation`. -/
def send_tool_confirmation_config : OpConfig :=
  { completion_events := ["complete", "tool_confirmation_request", "user_question_request", "error"]
    ensure_session_if_missing := false
    wait_sse_completion := false }

/-- Parameters `send_question_answer` passes to `_run_message_operation`. -/
def send_question_answer_config : OpConfig :=
  { completion_events := ["complete", "tool_confirmation_request", "user_question_request", "error"]
    ensure_session_if_missing := false
    wait_sse_completion := false }

/-- Parameters `switch_agent` passes to `_run_message_operation`. -/
def switch_agent_config : OpConfig :=
  { completion_events := ["agent_switched", "error"]
    ensure_session_if_missing := true
    wait_sse_completion := true }

/-- Parameters the `list_agents` probe passes to `_run_message_operation`. -/
def list_agents_config : OpConfig :=
  { completion_events := ["agent_list", "error"]
    ensure_session_if_missing := true
    wait_sse_completion := true }

/-- Parameters `rollback_to` passes to `_run_message_operation`. -/
def rollback_config : OpConfig :=
  { completion_events := ["rollback_result", "error"]
    ensure_session_if_missing := false
    wait_sse_completion := true }

/-- Exceptions that reach the `except` clauses of `_run_message_operation`,
in the order those clauses are tried: `TimeoutError`, `HTTPError`,
`URLError`, any other exception (`RuntimeError` included), each carrying the
information the handler reads off it. -/
inductive RunExc where
  | timeoutExc (msg : String)
  | httpExc (code : Int) (body : Option JVal) (reason : String)
  | urlExc (msg : String)
  | otherExc (msg : String)

/-- The `except` ladder of `_run_message_operation`. -/
def exception_to_result (host : String) (port : Nat) (sid : Option String) :
    RunExc → ClientResult
  | RunExc.timeoutExc m =>
    { status := "error"
      session_id := sid
      error_code := some (JVal.str "timeout")
      message := some (JVal.str m) }
  | RunExc.httpExc code body reason => http_error_to_result port code body reason
  | RunExc.urlExc m => connection_failed_result host port m
  | RunExc.otherExc m =>
    { status := "error"
      session_id := sid
      error_code := some (JVal.str "unexpected_error")
      message := some (JVal.str m) }

/-- Observable steps of one `_run_message_operation` invocation.  The four
teardown steps mirror `_close_event_stream`; `pollTick` is one iteration of
the bounded polling loop; `emitResult` is the Result reaching the caller
(after the `finally` block has run). -/
inductive Action where
  | openStream
  | startReader
  | postIssued
  | pollTick
  | signalCompleted
  | closeSocket
  | joinReader
  | closeResponse
  | emitResult (r : ClientResult)

/-- Predicate for the Result-emission action. -/
def isEmitResult : Action → Bool
  | Action.emitResult _ => true
  | _ => false

/-- Predicate for a polling-loop iteration. -/
def isPollTick : Action → Bool
  | Action.pollTick => true
  | _ => false

/-- Environment describing the behaviour of the concurrent parts of one
`_run_message_operation` invocation: whether `_open_event_stream` raises,
whether a raw socket handle was extracted, whether the reader thread is
still alive at teardown, whether the `connected` signal arrives within the
connect timeout, the overall deadline measured in polling-loop iterations,
the first loop iteration at which the SSE completion signal is observed set
(if ever), the iteration at which the POST thread finishes (if within the
deadline horizon), the outcome of the POST, and the correlator state visible when
the result is built. -/
structure OpEnv where
  openExc : Option RunExc
  sockPresent : Bool
  readerAliveAtClose : Bool
  connectedInTime : Bool
  deadlineTicks : Nat
  firstCompletedTick : Option Nat
  postDoneTick : Option Nat
  postOutcome : Except RunExc JVal
  state : ClientState

/-- Whether `self._completed_event` is observed set at loop iteration `t`. -/
def completedBy (env : OpEnv) (t : Nat) : Bool :=
  match env.firstCompletedTick with
  | some c => decide (c ≤ t)
  | none => false

/-- Whether the POST thread has set `post_done` by loop iteration `t`. -/
def postDoneBy (env : OpEnv) (t : Nat) : Bool :=
  match env.postDoneTick with
  | some c => decide (c ≤ t)
  | none => false

/-- Computes `isinstance(post_result, dict) and not post_result.get("success")`. -/
def post_failed (r : JVal) : Bool :=
  r.isObj && !truthyO (pget r "success")

/-- How the polling loop of `_run_message_operation` exited. -/
inductive LoopEnd where
  | timedOut
  | sseBreak (checked : Bool) (t : Nat)
  | postBreak (t : Nat)
  | raised (e : RunExc) (t : Nat)

/-- The polling loop (lines 564-583): each iteration first gives the SSE
completion signal a bounded wait (only when the command waits for SSE
completion), then checks the POST thread once; a failed POST response
raises, a successful one breaks the loop only for fire-and-continue
commands.  `fuel` is the number of iterations left before the overall
deadline, `t` the current iteration index, `checked`
`post_response_checked`. -/
def poll_loop (waitSse : Bool) (env : OpEnv) : Nat → Nat → Bool → LoopEnd
  | 0, _, _ => LoopEnd.timedOut
  | Nat.succ fuel, t, checked =>
    if waitSse && completedBy env t then LoopEnd.sseBreak checked t
    else if postDoneBy env t && !checked then
      match env.postOutcome with
      | Except.error e => LoopEnd.raised e t
      | Except.ok r =>
        if post_failed r then
          LoopEnd.raised (RunExc.otherExc ("发送消息失败: " ++ jstr r)) t
        else if !waitSse then LoopEnd.postBreak t
        else poll_loop waitSse env fuel (t + 1) true
    else poll_loop waitSse env fuel (t + 1) checked

/-- Number of loop iterations actually executed for a given exit. -/
def loop_ticks (deadlineTicks : Nat) : LoopEnd → Nat
  | LoopEnd.timedOut => deadlineTicks
  | LoopEnd.sseBreak _ t => t + 1
  | LoopEnd.postBreak t => t + 1
  | LoopEnd.raised _ t => t + 1

/-- The post-loop check (lines 585-594) followed by `return
self._build_result()`: after an SSE-signalled break an already-finished but
not yet inspected POST is still inspected and may raise. -/
def after_loop (env : OpEnv) : LoopEnd → Except RunExc ClientResult
  | LoopEnd.timedOut => Except.error (RunExc.timeoutExc "等待 SSE 响应完成超时")
  | LoopEnd.raised e _ => Except.error e
  | LoopEnd.postBreak _ => Except.ok (build_result env.state)
  | LoopEnd.sseBreak checked t =>
    if postDoneBy env t && !checked then
      match env.postOutcome with
      | Except.error e => Except.error e
      | Except.ok r =>
        if post_failed r then
          Except.error (RunExc.otherExc ("发送消息失败: " ++ jstr r))
        else Except.ok (build_result env.state)
    else Except.ok (build_result env.state)

/-- The `try` body of `_run_message_operation`: open the stream, start the
reader, wait for `connected` (raising a timeout when it does not arrive),
issue the POST on its own thread and enter the polling loop.  The session
bind/create calls between `connected` and the POST catch all their own
exceptions in the source and only affect `self._session_id`, which is part
of `env.state`; they add no control flow here. -/
def run_body (cfg : OpConfig) (env : OpEnv) : List Action × Except RunExc ClientResult :=
  match env.openExc with
  | some e => ([Action.openStream], Except.error e)
  | none =>
    if env.connectedInTime then
      let le := poll_loop cfg.wait_sse_completion env env.deadlineTicks 0 false
      ([Action.openStream, Action.startReader, Action.postIssued] ++
         List.replicate (loop_ticks env.deadlineTicks le) Action.pollTick,
       after_loop env le)
    else
      ([Action.openStream, Action.startReader],
       Except.error (RunExc.timeoutExc "连接 SSE 事件流超时"))

/-- Model of `_close_event_stream`: set the completion signal, close the raw socket
when one was captured, join the reader thread (bounded) when it is alive,
then close the response handle (bounded, on a helper thread) when the stream
was opened. -/
def close_stream_actions (streamOpen sockPresent readerAlive : Bool) : List Action :=
  Action.signalCompleted ::
    ((if sockPresent then [Action.closeSocket] else []) ++
     (if readerAlive then [Action.joinReader] else []) ++
     (if streamOpen then [Action.closeResponse] else []))

/-- The teardown steps `_close_event_stream` performs for a given
environment: socket/reader/response steps only apply when the stream was
opened at all. -/
def teardown_actions (env : OpEnv) : List Action :=
  close_stream_actions env.openExc.isNone (env.openExc.isNone && env.sockPresent)
    (env.openExc.isNone && env.readerAliveAtClose)

/-- Model of `_run_message_operation`: the `try` body, the `except` ladder mapping any
escaped exception to an error Result, and the `finally` teardown, which runs
on every path before the Result reaches the caller. -/
def run_message_operation (host : String) (port : Nat) (cfg : OpConfig) (env : OpEnv) :
    List Action × ClientResult :=
  let body := run_body cfg env
  let result := match body.2 with
    | Except.ok res => res
    | Except.error e => exception_to_result host port env.state.session_id e
  (body.1 ++ teardown_actions env ++ [Action.emitResult result], result)

/-- Fold a list of already-parsed events through the dispatcher, in arrival
order (the reader thread dispatches blocks strictly in stream order). -/
def process_events (s : ClientState) (events : List JVal) : ClientState :=
  events.foldl (fun st ev => handle_data_block st (some ev)) s

/-- A `connected` event carrying a connection id. -/
def connected_event : JVal :=
  JVal.obj [("type", JVal.str "connected"),
            ("data", JVal.obj [("connectionId", JVal.str "conn-1")])]

/-- A user `message` event. -/
def user_message_event (content : String) : JVal :=
  JVal.obj [("type", JVal.str "message"),
            ("data", JVal.obj [("role", JVal.str "user"), ("content", JVal.str content)])]

/-- A streaming assistant `message` event. -/
def assistant_streaming_event (content : String) : JVal :=
  JVal.obj [("type", JVal.str "message"),
            ("data", JVal.obj [("role", JVal.str "assistant"),
                               ("content", JVal.str content),
                               ("streaming", JVal.bool true)])]

/-- A bare `complete` event. -/
def complete_event : JVal :=
  JVal.obj [("type", JVal.str "complete"), ("data", JVal.obj [])]

/-- An `agent_list` event with the given data fields. -/
def agent_list_event (fields : List (String × JVal)) : JVal :=
  JVal.obj [("type", JVal.str "agent_list"), ("data", JVal.obj fields)]

/-- The terminal `rollback_result` event of the C6 scenario:
`{success:false, error:"conflict", sessionId:"s1"}`. -/
def rollback_conflict_event : JVal :=
  JVal.obj [("type", JVal.str "rollback_result"),
            ("data", JVal.obj [("success", JVal.bool false),
                               ("error", JVal.str "conflict"),
                               ("sessionId", JVal.str "s1")])]

/-- The correlator state after the C2 event sequence starting from a fresh
chat operation with no outbound images. -/
def chat_demo_state (u : String) : ClientState :=
  process_events (reset_runtime_state none send_chat_config.completion_events [])
    [connected_event, user_message_event u, assistant_streaming_event "a",
     assistant_streaming_event "ab", complete_event]

theorem band_true_left {a b : Bool} (h : (a && b) = true) : a = true := by
  cases a
  · simp at h
  · rfl

theorem mark_complete_pending (s : ClientState) (et : String) (d : JVal)
    (rid : Option JVal) :
    (mark_complete_if_needed s et d rid).pending_request = s.pending_request := by
  unfold mark_complete_if_needed
  split <;> rfl

theorem finalTypeIs_ne (s : ClientState) (a b : String) (hne : b ≠ a)
    (h : finalTypeIs s a = true) : finalTypeIs s b = false := by
  unfold finalTypeIs at h ⊢
  cases hf : s.final_event with
  | none => rfl
  | some fe =>
    rw [hf] at h
    have : fe.type = a := by simpa using h
    simp [this]
    exact fun hab => hne hab.symm

theorem build_result_no_pending_status (s : ClientState) (h : s.pending_request = none) :
    (build_result s).status = "success" ∨ (build_result s).status = "error" := by
  unfold build_result
  rw [h]
  cases s.error with
  | some e => exact Or.inr rfl
  | none =>
    by_cases h1 : (finalTypeIs s "agent_list" && s.agent_list_data.isSome) = true
    · simp [h1, agent_list_result]
    · by_cases h2 : (finalTypeIs s "agent_switched" && s.agent_switched_data.isSome) = true
      · simp [h1, h2, agent_switched_result]
      · by_cases h3 : (finalTypeIs s "rollback_result" && s.rollback_result_data.isSome) = true
        · by_cases hs : truthyO (pget (s.rollback_result_data.getD (JVal.obj [])) "success") = true
          · simp [h1, h2, h3, rollback_result_shape, hs]
          · simp [h1, h2, h3, rollback_result_shape, hs]
        · simp [h1, h2, h3, generic_success]

/-- C6: a rollback operation whose terminal `rollback_result` event carries
`{success:false, error:"conflict", sessionId:"s1"}` (with no pending
interactive request or stored error taking precedence) yields a Result with
status `error`, error_code `rollback_failed`, and a message containing
`"conflict"` (here the message is exactly `"conflict"`). -/
theorem rollback_conflict_yields_rollback_failed :
    (build_result (handle_data_block
        (reset_runtime_state (some "s1") rollback_config.completion_events [])
        (some rollback_conflict_event))).status = "error" ∧
    (build_result (handle_data_block
        (reset_runtime_state (some "s1") rollback_config.completion_events [])
        (some rollback_conflict_event))).error_code = some (JVal.str "rollback_failed") ∧
    (∃ m, (build_result (handle_data_block
        (reset_runtime_state (some "s1") rollback_config.completion_events [])
        (some rollback_conflict_event))).message = some (JVal.str m) ∧
      strHasSub m "conflict" = true) ∧
    (build_result (handle_data_block
        (reset_runtime_state (some "s1") rollback_config.completion_events [])
        (some rollback_conflict_event))).session_id = some "s1" :=
  ⟨rfl, rfl, ⟨"conflict", rfl, rfl⟩, rfl⟩

/-- C8: a stream read failure in the event reader before the completion
signal of the operation is set records a terminal `event_stream_error` and sets
the completion signal; a failure after the signal changes no state; and a
data block whose JSON parse fails is discarded without terminating anything. -/
theorem reader_failure_and_malformed_block (s : ClientState) (excText : String) :
    (s.completed = false →
      (event_reader_on_failure s excText).error =
        some { error_code := JVal.str "event_stream_error"
               message := JVal.str ("读取 SSE 事件失败: " ++ excText)
               available_agents := none } ∧
      (event_reader_on_failure s excText).completed = true) ∧
    (s.completed = true → event_reader_on_failure s excText = s) ∧
    handle_data_block s none = s := by
  refine ⟨?_, ?_, rfl⟩
  · intro h
    constructor <;> simp [event_reader_on_failure, h]
  · intro h
    simp [event_reader_on_failure, h]

/-- C8 witness: a fresh operation state has not completed, so a stream
failure there records the synthetic error and completes. -/
theorem reader_failure_witness :
    (event_reader_on_failure (reset_runtime_state none ["complete"] []) "boom").completed =
      true :=
  ((reader_failure_and_malformed_block (reset_runtime_state none ["complete"] []) "boom").1
    rfl).2

/-- C9 counterexample: against the same host and port, two invocations whose
URL errors render differently yield structurally different Results (the
message embeds the exception text), refuting that the message is derived
only from the configured host and port. -/
theorem health_check_message_not_host_port_only :
    health_check "localhost" 9001 (HttpOutcome.urlError "Connection refused") ≠
      health_check "localhost" 9001 (HttpOutcome.urlError "Network is unreachable") := by
  intro h
  have hm := congrArg ClientResult.message h
  simp [health_check, connection_failed_result] at hm
  exact absurd hm (by decide)

/-- C9 (amended): two `health_check` invocations whose requests raise the
same URL error yield structurally identical Results, with status `error`,
error_code `connection_failed`, a suggestion derived only from the port, and
a message templated from the host, the port, and the text of the URL error. -/
theorem health_check_unreachable_idempotent (host : String) (port : Nat) (e : String) :
    health_check host port (HttpOutcome.urlError e) =
      health_check host port (HttpOutcome.urlError e) ∧
    (health_check host port (HttpOutcome.urlError e)).status = "error" ∧
    (health_check host port (HttpOutcome.urlError e)).error_code =
      some (JVal.str "connection_failed") ∧
    (health_check host port (HttpOutcome.urlError e)).suggestion =
      some ("请确保 SSE 服务器已启动: snow --sse --sse-port " ++ toString port) ∧
    (health_check host port (HttpOutcome.urlError e)).message =
      some (JVal.str ("无法连接到 SSE 服务器 (" ++ host ++ ":" ++ toString port ++ "): " ++ e)) :=
  ⟨rfl, rfl, rfl, rfl, rfl⟩

/-- C10: an `agent_list` event whose data carries a list-valued `agents`
field clears any previously stored pending interactive request, so the
Result built after it cannot be `requires_confirmation` or
`requires_question` on account of an earlier interactive request. -/
theorem handle_agent_list (s : ClientState) (fields : List (String × JVal)) :
    handle_data_block s (some (agent_list_event fields)) =
      mark_complete_if_needed
        (match pget (JVal.obj fields) "agents" with
         | some (JVal.arr _) =>
             { s with agent_list_data := some (JVal.obj fields), pending_request := none }
         | _ => { s with agent_list_data := some (JVal.obj fields) })
        "agent_list" (JVal.obj fields) none := by
  rfl

theorem agent_list_clears_pending_request (s : ClientState)
    (fields : List (String × JVal)) (agents : List JVal)
    (hag : pget (JVal.obj fields) "agents" = some (JVal.arr agents)) :
    (handle_data_block s (some (agent_list_event fields))).pending_request = none ∧
    (build_result (handle_data_block s (some (agent_list_event fields)))).status ≠
      "requires_confirmation" ∧
    (build_result (handle_data_block s (some (agent_list_event fields)))).status ≠
      "requires_question" := by
  have hpend : (handle_data_block s (some (agent_list_event fields))).pending_request = none := by
    rw [handle_agent_list, mark_complete_pending, hag]
  refine ⟨hpend, ?_, ?_⟩ <;>
    rcases build_result_no_pending_status _ hpend with h | h <;> simp [h]

/-- C10 witness: a state with a stored confirmation request, fed an
`agent_list` event with an (empty) agents list. -/
theorem agent_list_clears_pending_witness :
    (handle_data_block
        { reset_runtime_state none ["agent_list", "error"] [] with
          pending_request := some
            { kind := PendingKind.confirmation, request_id := none
              request_data := JVal.obj [] } }
        (some (agent_list_event [("agents", JVal.arr [])]))).pending_request = none :=
  (agent_list_clears_pending_request _ [("agents", JVal.arr [])] [] rfl).1

/-- C1: result-construction precedence at Terminal, first match winning:
(1) a pending interactive request gives status `requires_confirmation` or
`requires_question`; (2) otherwise a stored error gives status `error`;
(3) otherwise a stored `agent_list`/`agent_switched`/`rollback_result`
payload matching the type of the observed terminal event gives the corresponding
success shape, a rollback `success:false` inverting to a `rollback_failed`
error; (4) otherwise a generic success carrying the accumulated user
messages plus, when assistant content was seen, one synthesized assistant
message from final-or-streaming content, and the latest usage snapshot. -/
theorem build_result_precedence (s : ClientState) :
    (∀ p, s.pending_request = some p →
      (build_result s).status = pending_status p.kind ∧
      (pending_status p.kind = "requires_confirmation" ∨
       pending_status p.kind = "requires_question")) ∧
    (∀ e, s.pending_request = none → s.error = some e →
      (build_result s).status = "error" ∧
      (build_result s).error_code = some e.error_code ∧
      (build_result s).message = some e.message) ∧
    (s.pending_request = none → s.error = none →
      ((finalTypeIs s "agent_list" && s.agent_list_data.isSome) = true →
        (build_result s).status = "success" ∧ (build_result s).agents.isSome = true) ∧
      ((finalTypeIs s "agent_switched" && s.agent_switched_data.isSome) = true →
        (build_result s).status = "success") ∧
      ((finalTypeIs s "rollback_result" && s.rollback_result_data.isSome) = true →
        (truthyO (pget (s.rollback_result_data.getD (JVal.obj [])) "success") = true →
          (build_result s).status = "success") ∧
        (truthyO (pget (s.rollback_result_data.getD (JVal.obj [])) "success") = false →
          (build_result s).status = "error" ∧
          (build_result s).error_code = some (JVal.str "rollback_failed"))) ∧
      ((finalTypeIs s "agent_list" && s.agent_list_data.isSome) = false →
       (finalTypeIs s "agent_switched" && s.agent_switched_data.isSome) = false →
       (finalTypeIs s "rollback_result" && s.rollback_result_data.isSome) = false →
        (build_result s).status = "success" ∧
        (build_result s).usage = s.usage ∧
        (assistantContent s = "" → (build_result s).messages = s.messages) ∧
        (assistantContent s ≠ "" → (build_result s).messages =
          s.messages ++ [{ role := "assistant", content := assistantContent s
                           images := none }]))) := by
  refine ⟨?_, ?_, ?_⟩
  · intro p hp
    refine ⟨by simp [build_result, hp], ?_⟩
    cases p.kind
    · exact Or.inl rfl
    · exact Or.inr rfl
  · intro e hp he
    refine ⟨?_, ?_, ?_⟩ <;> simp [build_result, hp, he]
  · intro hp he
    refine ⟨?_, ?_, ?_, ?_⟩
    · intro h1
      constructor <;> simp [build_result, hp, he, h1, agent_list_result]
    · intro h2
      have hsw : finalTypeIs s "agent_switched" = true := band_true_left h2
      have hal : finalTypeIs s "agent_list" = false :=
        finalTypeIs_ne s "agent_switched" "agent_list" (by decide) hsw
      simp [build_result, hp, he, hal, h2, agent_switched_result]
    · intro h3
      have hrb : finalTypeIs s "rollback_result" = true := band_true_left h3
      have hal : finalTypeIs s "agent_list" = false :=
        finalTypeIs_ne s "rollback_result" "agent_list" (by decide) hrb
      have hsw : finalTypeIs s "agent_switched" = false :=
        finalTypeIs_ne s "rollback_result" "agent_switched" (by decide) hrb
      constructor
      · intro hok
        simp [build_result, hp, he, hal, hsw, h3, rollback_result_shape, hok]
      · intro hfail
        constructor <;> simp [build_result, hp, he, hal, hsw, h3, rollback_result_shape, hfail]
    · intro h1 h2 h3
      refine ⟨?_, ?_, ?_, ?_⟩
      · simp [build_result, hp, he, h1, h2, h3, generic_success]
      · simp [build_result, hp, he, h1, h2, h3, generic_success]
      · intro hc
        simp [build_result, hp, he, h1, h2, h3, generic_success, assistantSuffix, hc]
      · intro hc
        simp [build_result, hp, he, h1, h2, h3, generic_success, assistantSuffix, hc]

/-- C1 witness: a state holding a pending confirmation request is reported
as `requires_confirmation`. -/
theorem build_result_precedence_witness :
    (build_result
        { reset_runtime_state none ["complete"] [] with
          pending_request := some
            { kind := PendingKind.confirmation, request_id := none
              request_data := JVal.obj [] } }).status = "requires_confirmation" :=
  ((build_result_precedence
      { reset_runtime_state none ["complete"] [] with
        pending_request := some
          { kind := PendingKind.confirmation, request_id := none
            request_data := JVal.obj [] } }).1 _ rfl).1

/-- C2: for the event sequence `[connected, message(user u),
message(assistant, streaming "a"), message(assistant, streaming "ab"),
complete]` with `complete` in the terminal set, the Result is a success
whose history is exactly one user entry followed by one assistant entry
with content `"ab"`; streaming assistant content overwrites (last write
wins) and final non-streaming content, when present, is preferred over
streaming content. -/
theorem chat_streaming_last_write_wins (u : String) (h : u ≠ "") :
    (build_result (chat_demo_state u)).status = "success" ∧
    (build_result (chat_demo_state u)).messages =
      [{ role := "user", content := u, images := none },
       { role := "assistant", content := "ab", images := none }] ∧
    (∀ st c, (handle_data_block st (some (assistant_streaming_event c))).assistant_stream_content
        = c) ∧
    (∀ st, st.assistant_final_content ≠ "" → assistantContent st = st.assistant_final_content) := by
  have hover : ∀ st c,
      (handle_data_block st (some (assistant_streaming_event c))).assistant_stream_content = c :=
    fun st c => rfl
  have hpref : ∀ st : ClientState, st.assistant_final_content ≠ "" →
      assistantContent st = st.assistant_final_content := by
    intro st hf
    simp [assistantContent, hf]
  have huser : chat_demo_state u =
      process_events
        (handle_data_block
          (handle_data_block (reset_runtime_state none send_chat_config.completion_events [])
            (some connected_event))
          (some (user_message_event u)))
        [assistant_streaming_event "a", assistant_streaming_event "ab", complete_event] := rfl
  refine ⟨?_, ?_, hover, hpref⟩ <;>
  · rw [huser]
    simp [process_events, handle_data_block, user_message_event, connected_event,
      assistant_streaming_event, complete_event, event_type_name, role_name, normalized_data,
      pget, lookupField, JVal.isObj, truthy, truthyO, jstr, mark_complete_if_needed,
      reset_runtime_state, send_chat_config, build_result, generic_success, assistantSuffix,
      assistantContent, finalTypeIs, h]
    try decide

/-- C2 witness: concrete user content "hi". -/
theorem chat_streaming_witness :
    ("hi" : String) ≠ "" ∧ (build_result (chat_demo_state "hi")).status = "success" :=
  ⟨by decide, (chat_streaming_last_write_wins "hi" (by decide)).1⟩

theorem countP_replicate_action (n : Nat) (p : Action → Bool) (a : Action) :
    (List.replicate n a).countP p = if p a then n else 0 := by
  induction n with
  | zero => simp
  | succ n ih =>
    rw [List.replicate_succ, List.countP_cons, ih]
    cases hpa : p a <;> simp [hpa]

theorem close_stream_countP_zero (p : Action → Bool) (b1 b2 b3 : Bool)
    (h1 : p Action.signalCompleted = false) (h2 : p Action.closeSocket = false)
    (h3 : p Action.joinReader = false) (h4 : p Action.closeResponse = false) :
    (close_stream_actions b1 b2 b3).countP p = 0 := by
  cases b1 <;> cases b2 <;> cases b3 <;>
    simp [close_stream_actions, List.countP_cons, h1, h2, h3, h4]

theorem run_body_countP_emit (cfg : OpConfig) (env : OpEnv) :
    (run_body cfg env).1.countP isEmitResult = 0 := by
  unfold run_body
  cases ho : env.openExc with
  | some e => rfl
  | none =>
    cases hc : env.connectedInTime
    · rfl
    · simp [hc, List.countP_append, countP_replicate_action, List.countP_cons, isEmitResult]

theorem run_body_countP_poll (cfg : OpConfig) (env : OpEnv) (hopen : env.openExc = none)
    (hconn : env.connectedInTime = true) :
    (run_body cfg env).1.countP isPollTick =
      loop_ticks env.deadlineTicks
        (poll_loop cfg.wait_sse_completion env env.deadlineTicks 0 false) := by
  unfold run_body
  rw [hopen]
  simp [hconn, List.countP_append, countP_replicate_action, List.countP_cons, isPollTick]

/-- C3: when the `connected` event never arrives within the connect timeout,
the operation returns a `timeout` error Result and the POST of the command
is never issued (the POST thread only starts after the connected signal). -/
theorem connect_timeout_no_post (host : String) (port : Nat) (cfg : OpConfig) (env : OpEnv)
    (hopen : env.openExc = none) (hconn : env.connectedInTime = false) :
    (run_message_operation host port cfg env).2.status = "error" ∧
    (run_message_operation host port cfg env).2.error_code = some (JVal.str "timeout") ∧
    Action.postIssued ∉ (run_message_operation host port cfg env).1 := by
  have hbody : run_body cfg env =
      ([Action.openStream, Action.startReader],
       Except.error (RunExc.timeoutExc "连接 SSE 事件流超时")) := by
    unfold run_body
    rw [hopen]
    simp [hconn]
  refine ⟨?_, ?_, ?_⟩
  · simp [run_message_operation, hbody, exception_to_result]
  · simp [run_message_operation, hbody, exception_to_result]
  · cases hs : env.sockPresent <;> cases hr : env.readerAliveAtClose <;>
      simp [run_message_operation, hbody, teardown_actions, close_stream_actions,
        hopen, hs, hr]

/-- C3 witness: a chat operation against an environment where `connected`
never arrives. -/
theorem connect_timeout_witness :
    (run_message_operation "localhost" 9001 send_chat_config
        { openExc := none, sockPresent := true, readerAliveAtClose := true
          connectedInTime := false, deadlineTicks := 4, firstCompletedTick := none
          postDoneTick := none, postOutcome := Except.ok (JVal.obj [])
          state := reset_runtime_state none ["complete"] [] }).2.error_code =
      some (JVal.str "timeout") :=
  (connect_timeout_no_post "localhost" 9001 send_chat_config
    { openExc := none, sockPresent := true, readerAliveAtClose := true
      connectedInTime := false, deadlineTicks := 4, firstCompletedTick := none
      postDoneTick := none, postOutcome := Except.ok (JVal.obj [])
      state := reset_runtime_state none ["complete"] [] } rfl rfl).2.1

/-- C7: every invocation emits exactly one Result, and only after the
stream-teardown routine (signal completion, close socket, join reader,
close response handle — each attempted when its handle exists) has run:
the action trace is the operation body, then the teardown steps, then the
single Result emission, on every exit path. -/
theorem single_result_after_teardown (host : String) (port : Nat) (cfg : OpConfig)
    (env : OpEnv) :
    (run_message_operation host port cfg env).1.countP isEmitResult = 1 ∧
    (run_message_operation host port cfg env).1 =
      (run_body cfg env).1 ++ teardown_actions env ++
        [Action.emitResult (run_message_operation host port cfg env).2] ∧
    (run_body cfg env).1.countP isEmitResult = 0 ∧
    (teardown_actions env).countP isEmitResult = 0 ∧
    Action.signalCompleted ∈ teardown_actions env := by
  have hb := run_body_countP_emit cfg env
  have ht : (teardown_actions env).countP isEmitResult = 0 :=
    close_stream_countP_zero isEmitResult _ _ _ rfl rfl rfl rfl
  refine ⟨?_, rfl, hb, ht, ?_⟩
  · show ((run_body cfg env).1 ++ teardown_actions env ++
        [Action.emitResult (run_message_operation host port cfg env).2]).countP isEmitResult = 1
    rw [List.countP_append, List.countP_append, hb, ht]
    rfl
  · simp [teardown_actions, close_stream_actions]

theorem poll_loop_post_failure (w : Bool) (env : OpEnv) (tp : Nat)
    (hnc : env.firstCompletedTick = none)
    (hpd : env.postDoneTick = some tp)
    (r : JVal) (hro : env.postOutcome = Except.ok r) (hrf : post_failed r = true) :
    ∀ fuel t, t ≤ tp → tp < t + fuel →
      poll_loop w env fuel t false =
        LoopEnd.raised (RunExc.otherExc ("发送消息失败: " ++ jstr r)) tp := by
  intro fuel
  induction fuel with
  | zero => intro t ht hlt; omega
  | succ n ih =>
    intro t ht hlt
    unfold poll_loop
    have hcb : completedBy env t = false := by simp [completedBy, hnc]
    rw [hcb, Bool.and_false]
    by_cases heq : t = tp
    · subst heq
      have hdb : postDoneBy env t = true := by simp [postDoneBy, hpd]
      simp [hdb, hro, hrf]
    · have hlt2 : t < tp := Nat.lt_of_le_of_ne ht heq
      have hdb : postDoneBy env t = false := by
        simp only [postDoneBy, hpd, decide_eq_false_iff_not]
        omega
      simp only [hdb, Bool.false_and, Bool.false_eq_true, if_false]
      exact ih (t + 1) (by omega) (by omega)

theorem poll_loop_wait_never_completes (env : OpEnv) (r : JVal)
    (hnc : env.firstCompletedTick = none) (hro : env.postOutcome = Except.ok r)
    (hrf : post_failed r = false) :
    ∀ fuel t checked, poll_loop true env fuel t checked = LoopEnd.timedOut := by
  intro fuel
  induction fuel with
  | zero => intro t c; rfl
  | succ n ih =>
    intro t c
    unfold poll_loop
    have hcb : completedBy env t = false := by simp [completedBy, hnc]
    rw [hcb, Bool.and_false]
    cases hd : (postDoneBy env t && !c)
    · simp only [Bool.false_eq_true, if_false]
      exact ih (t + 1) c
    · simp only [hd, if_true, hro, hrf, Bool.false_eq_true, if_false, Bool.not_true]
      exact ih (t + 1) true

theorem poll_loop_no_wait_post_break (env : OpEnv) (tp : Nat) (r : JVal)
    (hpd : env.postDoneTick = some tp) (hro : env.postOutcome = Except.ok r)
    (hrf : post_failed r = false) :
    ∀ fuel t, t ≤ tp → tp < t + fuel →
      poll_loop false env fuel t false = LoopEnd.postBreak tp := by
  intro fuel
  induction fuel with
  | zero => intro t ht hlt; omega
  | succ n ih =>
    intro t ht hlt
    unfold poll_loop
    rw [Bool.false_and]
    by_cases heq : t = tp
    · subst heq
      have hdb : postDoneBy env t = true := by simp [postDoneBy, hpd]
      simp [hdb, hro, hrf]
    · have hlt2 : t < tp := Nat.lt_of_le_of_ne ht heq
      have hdb : postDoneBy env t = false := by
        simp only [postDoneBy, hpd, decide_eq_false_iff_not]
        omega
      simp only [hdb, Bool.false_and, Bool.false_eq_true, if_false]
      exact ih (t + 1) (by omega) (by omega)

/-- C4: when the POST to `/message` completes with a dict response whose
`success` field is falsy before any terminal SSE event was observed, the
operation returns an error Result at that loop iteration, well before the
overall deadline would expire. -/
theorem post_failure_immediate_error (host : String) (port : Nat) (cfg : OpConfig)
    (env : OpEnv) (_hw : cfg.wait_sse_completion = true)
    (hopen : env.openExc = none) (hconn : env.connectedInTime = true)
    (hnc : env.firstCompletedTick = none)
    (tp : Nat) (hpd : env.postDoneTick = some tp)
    (r : JVal) (hro : env.postOutcome = Except.ok r) (hrf : post_failed r = true)
    (hdl : tp + 1 < env.deadlineTicks) :
    (run_message_operation host port cfg env).2.status = "error" ∧
    (run_message_operation host port cfg env).2.error_code =
      some (JVal.str "unexpected_error") ∧
    (run_message_operation host port cfg env).1.countP isPollTick = tp + 1 ∧
    tp + 1 < env.deadlineTicks := by
  have hloop : poll_loop cfg.wait_sse_completion env env.deadlineTicks 0 false =
      LoopEnd.raised (RunExc.otherExc ("发送消息失败: " ++ jstr r)) tp :=
    poll_loop_post_failure cfg.wait_sse_completion env tp hnc hpd r hro hrf
      env.deadlineTicks 0 (Nat.zero_le _) (by omega)
  have hbody : run_body cfg env =
      ([Action.openStream, Action.startReader, Action.postIssued] ++
         List.replicate (tp + 1) Action.pollTick,
       Except.error (RunExc.otherExc ("发送消息失败: " ++ jstr r))) := by
    unfold run_body
    rw [hopen]
    simp [hconn, hloop, loop_ticks, after_loop]
  refine ⟨?_, ?_, ?_, hdl⟩
  · simp [run_message_operation, hbody, exception_to_result]
  · simp [run_message_operation, hbody, exception_to_result]
  · have ht : (teardown_actions env).countP isPollTick = 0 :=
      close_stream_countP_zero isPollTick _ _ _ rfl rfl rfl rfl
    simp [run_message_operation, hbody, List.countP_append, ht, countP_replicate_action,
      List.countP_cons, isPollTick]

/-- The environment of the C4 witness: POST finishes at iteration 1 with
`{success:false}`, no SSE terminal event ever, deadline 5 iterations. -/
def post_fail_env : OpEnv :=
  { openExc := none, sockPresent := true, readerAliveAtClose := true
    connectedInTime := true, deadlineTicks := 5, firstCompletedTick := none
    postDoneTick := some 1
    postOutcome := Except.ok (JVal.obj [("success", JVal.bool false)])
    state := reset_runtime_state none ["complete"] [] }

/-- C4 witness: a chat operation against `post_fail_env` errors without
polling out the deadline. -/
theorem post_failure_witness :
    (run_message_operation "localhost" 9001 send_chat_config post_fail_env).2.status =
      "error" ∧
    (run_message_operation "localhost" 9001 send_chat_config post_fail_env).1.countP
      isPollTick = 2 :=
  ⟨(post_failure_immediate_error "localhost" 9001 send_chat_config post_fail_env rfl rfl rfl
      rfl 1 rfl (JVal.obj [("success", JVal.bool false)]) rfl rfl (by decide)).1,
   (post_failure_immediate_error "localhost" 9001 send_chat_config post_fail_env rfl rfl rfl
      rfl 1 rfl (JVal.obj [("success", JVal.bool false)]) rfl rfl (by decide)).2.2.1⟩

/-- C5: the tool-confirmation and question-answer commands are configured
with `wait_sse_completion = False`, so once the POST completes successfully
the operation leaves the polling loop and returns a Result without waiting
for any SSE terminal event; chat, agent-switch and rollback commands are
configured to wait and, with no SSE terminal signal, do not return success
on POST completion alone (they run to the deadline and time out). -/
theorem fire_and_continue_semantics (host : String) (port : Nat) (env : OpEnv)
    (hopen : env.openExc = none) (hconn : env.connectedInTime = true)
    (hnc : env.firstCompletedTick = none)
    (tp : Nat) (hpd : env.postDoneTick = some tp)
    (r : JVal) (hro : env.postOutcome = Except.ok r) (hrf : post_failed r = false)
    (hdl : tp < env.deadlineTicks) :
    send_tool_confirmation_config.wait_sse_completion = false ∧
    send_question_answer_config.wait_sse_completion = false ∧
    send_chat_config.wait_sse_completion = true ∧
    switch_agent_config.wait_sse_completion = true ∧
    rollback_config.wait_sse_completion = true ∧
    (∀ cfg : OpConfig, cfg.wait_sse_completion = false →
      (run_message_operation host port cfg env).2 = build_result env.state ∧
      (run_message_operation host port cfg env).1.countP isPollTick = tp + 1) ∧
    (∀ cfg : OpConfig, cfg.wait_sse_completion = true →
      (run_message_operation host port cfg env).2.status = "error" ∧
      (run_message_operation host port cfg env).2.error_code =
        some (JVal.str "timeout")) := by
  refine ⟨rfl, rfl, rfl, rfl, rfl, ?_, ?_⟩
  · intro cfg hw
    have hloop : poll_loop cfg.wait_sse_completion env env.deadlineTicks 0 false =
        LoopEnd.postBreak tp := by
      rw [hw]
      exact poll_loop_no_wait_post_break env tp r hpd hro hrf env.deadlineTicks 0
        (Nat.zero_le _) (by omega)
    have hbody : run_body cfg env =
        ([Action.openStream, Action.startReader, Action.postIssued] ++
           List.replicate (tp + 1) Action.pollTick,
         Except.ok (build_result env.state)) := by
      unfold run_body
      rw [hopen]
      simp [hconn, hloop, loop_ticks, after_loop]
    constructor
    · simp [run_message_operation, hbody]
    · have ht : (teardown_actions env).countP isPollTick = 0 :=
        close_stream_countP_zero isPollTick _ _ _ rfl rfl rfl rfl
      simp [run_message_operation, hbody, List.countP_append, ht, countP_replicate_action,
        List.countP_cons, isPollTick]
  · intro cfg hw
    have hloop : poll_loop cfg.wait_sse_completion env env.deadlineTicks 0 false =
        LoopEnd.timedOut := by
      rw [hw]
      exact poll_loop_wait_never_completes env r hnc hro hrf env.deadlineTicks 0 false
    have hbody : run_body cfg env =
        ([Action.openStream, Action.startReader, Action.postIssued] ++
           List.replicate env.deadlineTicks Action.pollTick,
         Except.error (RunExc.timeoutExc "等待 SSE 响应完成超时")) := by
      unfold run_body
      rw [hopen]
      simp [hconn, hloop, loop_ticks, after_loop]
    constructor <;> simp [run_message_operation, hbody, exception_to_result]

/-- The environment of the C5 witness: POST finishes at iteration 0 with
`{success:true}`, no SSE terminal event ever, deadline 4 iterations. -/
def post_ok_env : OpEnv :=
  { openExc := none, sockPresent := true, readerAliveAtClose := true
    connectedInTime := true, deadlineTicks := 4, firstCompletedTick := none
    postDoneTick := some 0
    postOutcome := Except.ok (JVal.obj [("success", JVal.bool true)])
    state := reset_runtime_state none ["complete"] [] }

/-- C5 witness: a tool-confirmation operation against `post_ok_env` returns
the built Result after the POST alone, while a chat operation there times
out waiting for the SSE terminal signal. -/
theorem fire_and_continue_witness :
    (run_message_operation "localhost" 9001 send_tool_confirmation_config post_ok_env).2 =
      build_result post_ok_env.state ∧
    (run_message_operation "localhost" 9001 send_chat_config post_ok_env).2.error_code =
      some (JVal.str "timeout") :=
  ⟨((fire_and_continue_semantics "localhost" 9001 post_ok_env rfl rfl rfl 0 rfl
      (JVal.obj [("success", JVal.bool true)]) rfl rfl
      (by decide)).2.2.2.2.2.1 send_tool_confirmation_config rfl).1,
   ((fire_and_continue_semantics "localhost" 9001 post_ok_env rfl rfl rfl 0 rfl
      (JVal.obj [("success", JVal.bool true)]) rfl rfl
      (by decide)).2.2.2.2.2.2 send_chat_config rfl).2⟩

end SnowClient
